import Mathlib

/-
Verification of the TriviaApp backend (backend/flaskr/__init__.py).
The storage collaborator is modelled as a plain list of records; request
bodies are modelled as structures whose optional fields stand for JSON
fields that may be absent or null.  Page numbers enter through the Flask
query-string parser, which defaults to 1, so the embedding takes pages
as natural numbers and theorems about slicing assume 1 <= page.
-/

/-- The error outcomes that the Flask error handlers turn into responses:
404 resource not found, 422 unprocessable, 400 invalid syntax,
500 server error (an exception escaping a handler). -/
inductive HttpError where
  | notFound
  | unprocessable
  | badRequest
  | internalError
deriving Repr, DecidableEq

/-- Modelled from the spec: the Category record of the absent models.py,
with a unique identifier and a display name (the type column). -/
structure Category where
  id : Int
  type : String
deriving Repr, DecidableEq

/-- Modelled from the spec: the Question record of the absent models.py,
with identifier, question text, answer text, category reference and
difficulty score. -/
structure Question where
  id : Nat
  question : String
  answer : String
  category : Int
  difficulty : Int
deriving Repr, DecidableEq

/-- Modelled from the spec: Question.format reshapes a record into its
JSON dictionary carrying the same five field values; the embedding keeps
the record itself. -/
def Question.format (q : Question) : Question := q

def QUESTIONS_PER_PAGE : Nat := 10

/-- paginate_questions: formats the selection and returns the Python slice
[(page - 1) * 10 : page * 10] of it. -/
def paginate_questions (page : Nat) (selection : List Question) : List Question :=
  let start := (page - 1) * QUESTIONS_PER_PAGE
  ((selection.map Question.format).drop start).take QUESTIONS_PER_PAGE

/-- Response of GET /questions. -/
structure GetQuestionsResp where
  success : Bool
  questions : List Question
  total_questions : Nat
  current_category : Option Int
  categories : List (Int × String)
deriving Repr, DecidableEq

/-- The category dictionary reshaped from the category table. -/
def category_dict (cats : List Category) : List (Int × String) :=
  cats.map (fun c => (c.id, c.type))

/-- get_questions: aborts 404 when page > len(questions) // 10 + 1,
otherwise returns the paginated slice, the total count, a null current
category and the category dictionary. -/
def get_questions (page : Nat) (db : List Question) (cats : List Category) :
    Except HttpError GetQuestionsResp :=
  if page > db.length / 10 + 1 then
    .error .notFound
  else
    .ok { success := true
          questions := paginate_questions page db
          total_questions := db.length
          current_category := none
          categories := category_dict cats }

/-- one_or_none on a SQLAlchemy query result: none for an empty result,
the single row when there is exactly one, and a MultipleResultsFound
exception (escaping as a 500) when there are several. -/
def one_or_none {α : Type} (l : List α) : Except HttpError (Option α) :=
  match l with
  | [] => .ok none
  | [a] => .ok (some a)
  | _ => .error .internalError

/-- delete_questions: looks the question up with one_or_none before the
try block, then calls question.delete() inside it; when the lookup gave
None the attribute access raises and the handler aborts 422, leaving the
storage unchanged.  On success the row is removed and the identifier
echoed back. -/
def delete_questions (question_id : Nat) (db : List Question) :
    Except HttpError Nat × List Question :=
  match one_or_none (db.filter (fun q => q.id == question_id)) with
  | .error e => (.error e, db)
  | .ok none => (.error .unprocessable, db)
  | .ok (some _) => (.ok question_id, db.filter (fun q => !(q.id == question_id)))

/-- Body of POST /questions/add; a field that is absent or JSON null is
modelled as none. -/
structure CreateBody where
  question : Option String
  answer : Option String
  category : Option Int
  difficulty : Option Int
deriving Repr, DecidableEq

/-- Python truthiness of an optional string: None and the empty string
are falsy. -/
def pyTruthyStr : Option String → Bool
  | none => false
  | some s => !s.isEmpty

/-- Python truthiness of an optional integer: None and 0 are falsy. -/
def pyTruthyInt : Option Int → Bool
  | none => false
  | some n => n != 0

/-- create_question: reads the four fields with default None, then only
when all([question, answer, category, difficulty]) holds inserts the
record and returns its new identifier; otherwise aborts 422 with the
storage unchanged.  nextId stands for the identifier the storage
collaborator assigns on insert. -/
def create_question (body : CreateBody) (nextId : Nat) (db : List Question) :
    Except HttpError Nat × List Question :=
  if pyTruthyStr body.question && pyTruthyStr body.answer &&
      pyTruthyInt body.category && pyTruthyInt body.difficulty then
    (.ok nextId,
      db ++ [{ id := nextId
               question := body.question.getD ""
               answer := body.answer.getD ""
               category := body.category.getD 0
               difficulty := body.difficulty.getD 0 }])
  else
    (.error .unprocessable, db)

/-- Helper for the percent wildcard: the rest of the pattern may start
matching at the current position or after dropping any prefix of the
remaining text. -/
def likePercent (f : List Char → Bool) : List Char → Bool
  | [] => f []
  | d :: s2 => f (d :: s2) || likePercent f s2

/-- SQL LIKE pattern matching over character lists, following the
PostgreSQL rules: the percent wildcard matches any sequence, the
underscore wildcard matches any single character, a backslash — the
default ESCAPE character when no ESCAPE clause is given — makes the
following pattern character match literally, and every other pattern
character matches itself.  A pattern consisting of a lone trailing
escape character is an error in PostgreSQL; it is modelled as matching
nothing and is unreachable from the handler, whose patterns always end
in a percent. -/
def likeMatches : List Char → List Char → Bool
  | [], [] => true
  | [], _ :: _ => false
  | '%' :: p, s => likePercent (likeMatches p) s
  | '_' :: _, [] => false
  | '_' :: p, _ :: s2 => likeMatches p s2
  | ['\\'], _ => false
  | '\\' :: _ :: _, [] => false
  | '\\' :: c :: p, d :: s2 => c == d && likeMatches p s2
  | _ :: _, [] => false
  | c :: p, d :: s2 => c == d && likeMatches p s2

/-- SQLAlchemy ilike: case-insensitive LIKE, modelled by folding both the
column value and the pattern character by character.  Char.toLower folds
the ASCII range only, so the theorems quantifying over search inputs
restrict terms and question texts to ASCII characters, the domain on
which this folding agrees with the case-insensitive comparison of the
storage collaborator. -/
def ilike (text pattern : String) : Bool :=
  likeMatches (pattern.data.map Char.toLower) (text.data.map Char.toLower)

/-- The ordering SQL order_by(Question.id) applies to a result set. -/
def orderById (l : List Question) : List Question :=
  List.insertionSort (fun a b => a.id ≤ b.id) l

/-- Body of POST /questions/search; the searchTerm field is none when the
key is absent from the JSON body. -/
structure SearchBody where
  searchTerm : Option String
deriving Repr, DecidableEq

/-- Response of POST /questions/search. -/
structure SearchResp where
  success : Bool
  questions : List Question
  total_questions : Nat
deriving Repr, DecidableEq

/-- search_questions: body.get with the string literal None as default,
so an absent key yields the four-letter string None, which is truthy.
A truthy term selects the questions whose text matches ilike on the
pattern percent-term-percent ordered by identifier, pages the result and
reports the unsliced match count; a falsy term aborts 404. -/
def search_questions (body : SearchBody) (page : Nat) (db : List Question) :
    Except HttpError SearchResp :=
  let search := body.searchTerm.getD "None"
  if !search.isEmpty then
    let selection :=
      orderById (db.filter (fun q => ilike q.question ("%" ++ search ++ "%")))
    .ok { success := true
          questions := paginate_questions page selection
          total_questions := selection.length }
  else
    .error .notFound

/-- Response of GET /categories/id/questions. -/
structure CatResp where
  success : Bool
  questions : List Question
  total_questions : Nat
  current_category : Int
deriving Repr, DecidableEq

/-- get_category_questions: one_or_none lookup of the category and a
filter of the questions on the category column; a missing category
aborts 422, a present category with no questions aborts 404, otherwise
the paginated slice is returned with total_questions set to the length
of that slice and the identifier echoed as current_category. -/
def get_category_questions (category_id : Int) (page : Nat)
    (db : List Question) (cats : List Category) : Except HttpError CatResp :=
  match one_or_none (cats.filter (fun c => c.id == category_id)) with
  | .error e => .error e
  | .ok category =>
    let questions := db.filter (fun q => q.category == category_id)
    match category with
    | none => .error .unprocessable
    | some _ =>
      if questions.length == 0 then
        .error .notFound
      else
        let current := paginate_questions page questions
        .ok { success := true
              questions := current
              total_questions := current.length
              current_category := category_id }

/-- Body of POST /play: quiz_category is none when the body lacks the
quiz_category object, lacks its id field, or carries an id that int()
cannot parse — each of those raises inside the try block and aborts 422.
previous_questions defaults to the empty list when absent. -/
structure QuizBody where
  quiz_category : Option Int
  previous_questions : List Nat
deriving Repr, DecidableEq

/-- Response of POST /play; none as the question payload models the
Python literal False returned when no draw happens. -/
structure QuizResp where
  success : Bool
  question : Option Question
deriving Repr, DecidableEq

/-- Category.query.get: primary-key lookup. -/
def categoryGet (cats : List Category) (cid : Int) : Option Category :=
  cats.find? (fun c => c.id == cid)

/-- The draw at the end of post_quizzes: max is len(questions) - 1 over
the integers, and only when max > 0 is a random index in [0, max] used;
otherwise the payload is False.  The random index is passed in as pick;
randint guarantees pick <= max, and an out-of-range index would raise
and abort 422 like any other exception in the handler. -/
def quizDraw (questions : List Question) (pick : Nat) :
    Except HttpError QuizResp :=
  let mx : Int := (questions.length : Int) - 1
  if mx > 0 then
    match questions[pick]? with
    | some q => .ok { success := true, question := some q.format }
    | none => .error .unprocessable
  else
    .ok { success := true, question := none }

/-- post_quizzes: resolves the category id, then filters the question
bank — for a positive id down to the category (skipping the not-in
filter when previous_questions is empty), for the sentinel id over the
whole bank — and draws via quizDraw.  A missing category object for a
positive id raises on the attribute access and aborts 422. -/
def post_quizzes (body : QuizBody) (db : List Question) (cats : List Category)
    (pick : Nat) : Except HttpError QuizResp :=
  match body.quiz_category with
  | none => .error .unprocessable
  | some cid =>
    let category := categoryGet cats cid
    let prev := body.previous_questions
    if cid > 0 then
      match category with
      | none => .error .unprocessable
      | some cat =>
        let questions :=
          if prev.length > 0 then
            db.filter (fun q => !(prev.contains q.id) && q.category == cat.id)
          else
            db.filter (fun q => q.category == cat.id)
        quizDraw questions pick
    else
      let questions :=
        if prev.length > 0 then
          db.filter (fun q => !(prev.contains q.id))
        else
          db
      quizDraw questions pick

/-- The eligible candidate set in the words of the spec: the questions in
scope (one category for a positive scope, the whole bank for the
sentinel) minus the excluded identifiers. -/
def eligibleSet (cid : Int) (prev : List Nat) (db : List Question) :
    List Question :=
  if cid > 0 then
    db.filter (fun q => q.category == cid && !(prev.contains q.id))
  else
    db.filter (fun q => !(prev.contains q.id))

/-- Case-insensitive substring containment in the words of the spec:
the lowercased term occurs contiguously inside the lowercased text. -/
def spec_contains_ci (text term : String) : Bool :=
  decide ((term.data.map Char.toLower) <:+: (text.data.map Char.toLower))

instance : IsTotal Question (fun a b => a.id ≤ b.id) :=
  ⟨fun a b => Nat.le_total a.id b.id⟩

instance : IsTrans Question (fun a b => a.id ≤ b.id) :=
  ⟨fun _ _ _ h1 h2 => Nat.le_trans h1 h2⟩

/- ------------------------------------------------------------------ -/
/- Helper lemmas shared by the claim theorems.                         -/
/- ------------------------------------------------------------------ -/

theorem orderById_perm (l : List Question) : List.Perm (orderById l) l :=
  List.perm_insertionSort _ l

theorem orderById_length (l : List Question) :
    (orderById l).length = l.length :=
  (orderById_perm l).length_eq

theorem orderById_mem {q : Question} {l : List Question}
    (h : q ∈ orderById l) : q ∈ l :=
  (List.Perm.mem_iff (orderById_perm l)).mp h

theorem orderById_sorted (l : List Question) :
    (orderById l).Sorted (fun a b => a.id ≤ b.id) :=
  List.sorted_insertionSort _ l

@[simp] theorem Question.format_eq (q : Question) : q.format = q := rfl

theorem map_format_eq (l : List Question) : l.map Question.format = l :=
  List.map_id' l

theorem paginate_eq (page : Nat) (l : List Question) :
    paginate_questions page l =
      (l.drop ((page - 1) * QUESTIONS_PER_PAGE)).take QUESTIONS_PER_PAGE := by
  simp only [paginate_questions, map_format_eq]

theorem paginate_sublist (page : Nat) (l : List Question) :
    List.Sublist (paginate_questions page l) l := by
  rw [paginate_eq]
  exact (List.take_sublist _ _).trans (List.drop_sublist _ _)

theorem mem_paginate {q : Question} {page : Nat} {l : List Question}
    (h : q ∈ paginate_questions page l) : q ∈ l :=
  (paginate_sublist page l).mem h

theorem paginate_length_le (page : Nat) (l : List Question) :
    (paginate_questions page l).length ≤ QUESTIONS_PER_PAGE := by
  rw [paginate_eq]
  exact List.length_take_le _ _

/- ------------------------------------------------------------------ -/
/- Claim C3 (corrected).                                               -/
/- ------------------------------------------------------------------ -/

/-- C3 counterexample: with a total of 0 questions, page 1 addresses an
offset holding no question, yet get_questions succeeds with an empty
page instead of failing with NotFound. -/
theorem C3_counterexample :
    (1 - 1) * QUESTIONS_PER_PAGE ≥ ([] : List Question).length ∧
    get_questions 1 ([] : List Question) [] =
      .ok { success := true, questions := [], total_questions := 0,
            current_category := none, categories := [] } :=
  ⟨by decide, by rfl⟩

/-- C3 amended: get_questions fails with NotFound exactly when the page
number exceeds total div 10 plus 1; every rejected page indeed addresses
an offset at or beyond the total, but when the total is a multiple of
ten — including zero — the page total div 10 plus 1 also addresses such
an offset and is answered with an empty success page instead. -/
theorem C3_page_overflow (page : Nat) (db : List Question)
    (cats : List Category) (hp : 1 ≤ page) :
    (get_questions page db cats = .error .notFound ↔
      db.length / 10 + 1 < page) ∧
    (db.length / 10 + 1 < page →
      db.length ≤ (page - 1) * QUESTIONS_PER_PAGE) := by
  constructor
  · by_cases h : db.length / 10 + 1 < page
    · simp [get_questions, h]
    · simp [get_questions, h]
  · intro h
    unfold QUESTIONS_PER_PAGE
    omega

/-- C3 witness: page 2 over an empty bank is rejected with NotFound and
its offset indeed holds no question. -/
theorem C3_page_overflow_witness :
    get_questions 2 ([] : List Question) [] = .error .notFound ∧
    ([] : List Question).length ≤ (2 - 1) * QUESTIONS_PER_PAGE :=
  ⟨(C3_page_overflow 2 [] [] (by decide)).1.mpr (by decide),
   (C3_page_overflow 2 [] [] (by decide)).2 (by decide)⟩

/- ------------------------------------------------------------------ -/
/- Claim C5 (corrected).                                               -/
/- ------------------------------------------------------------------ -/

/-- C5 counterexample: a request body without the searchTerm key does
not fail with NotFound — the Flask default is the four-letter string
None, which is truthy, so a normal search for that literal substring is
performed and succeeds, even matching question texts containing the word
None. -/
theorem C5_counterexample :
    search_questions { searchTerm := none } 1 [] =
      .ok { success := true, questions := [], total_questions := 0 } ∧
    search_questions { searchTerm := none } 1
        [{ id := 1, question := "None of the above", answer := "a",
           category := 1, difficulty := 1 }] =
      .ok { success := true,
            questions := [{ id := 1, question := "None of the above",
                            answer := "a", category := 1, difficulty := 1 }],
            total_questions := 1 } :=
  ⟨by rfl, by rfl⟩

/-- C5 amended: search_questions fails with NotFound when the term is
the empty string; when the term is absent from the body it is defaulted
to the literal string None and a normal search for that string is
performed. -/
theorem C5_empty_vs_absent_term (page : Nat) (db : List Question) :
    search_questions { searchTerm := some "" } page db = .error .notFound ∧
    search_questions { searchTerm := none } page db =
      search_questions { searchTerm := some "None" } page db :=
  ⟨by rfl, by rfl⟩

/- ------------------------------------------------------------------ -/
/- Claim C6 (confirmed).                                               -/
/- ------------------------------------------------------------------ -/

/-- C6: when any of the four creation fields is missing, null or falsy
empty, create_question fails with Unprocessable and the stored question
set is returned unchanged — the truthiness validation guards the insert,
so no record is written on failure. -/
theorem C6_create_validation (body : CreateBody) (nextId : Nat)
    (db : List Question)
    (h : pyTruthyStr body.question = false ∨ pyTruthyStr body.answer = false ∨
      pyTruthyInt body.category = false ∨ pyTruthyInt body.difficulty = false) :
    create_question body nextId db = (.error .unprocessable, db) := by
  unfold create_question
  rcases h with h | h | h | h <;> simp [h]

/-- C6 witness: a body with an empty question text is rejected and the
bank is unchanged. -/
theorem C6_create_validation_witness :
    create_question
      { question := some "", answer := some "a", category := some 1,
        difficulty := some 1 } 5 [] = (.error .unprocessable, []) :=
  C6_create_validation _ 5 [] (Or.inl (by decide))

/- ------------------------------------------------------------------ -/
/- Claim C10 (confirmed).                                              -/
/- ------------------------------------------------------------------ -/

/-- C10: a creation body whose four fields are all present and non-null
but whose category or difficulty equals the integer 0 is rejected with
Unprocessable and nothing is inserted, because the all() presence check
treats the falsy integer 0 as a missing field. -/
theorem C10_zero_field_rejected (qs as : String) (c d : Int) (nextId : Nat)
    (db : List Question) (h : c = 0 ∨ d = 0) :
    create_question
      { question := some qs, answer := some as, category := some c,
        difficulty := some d } nextId db = (.error .unprocessable, db) := by
  unfold create_question
  rcases h with h | h <;> subst h <;> simp [pyTruthyInt]

/-- C10 witness: difficulty 0 with every field present is rejected and
the bank is unchanged. -/
theorem C10_zero_field_rejected_witness :
    create_question
      { question := some "q", answer := some "a", category := some 1,
        difficulty := some 0 } 7 [] = (.error .unprocessable, []) :=
  C10_zero_field_rejected "q" "a" 1 0 7 [] (Or.inr rfl)

/- ------------------------------------------------------------------ -/
/- Claim C4 (corrected).                                               -/
/- ------------------------------------------------------------------ -/

/-- C4 counterexample: a category holding 11 questions has an unsliced
count of 11, yet get_category_questions reports total_questions = 10,
the length of the page slice, not the unsliced matching count. -/
theorem C4_counterexample :
    (((List.range 11).map (fun i =>
        ({ id := i, question := "q", answer := "a", category := 1,
           difficulty := 1 } : Question))).filter
      (fun q => q.category == 1)).length = 11 ∧
    get_category_questions 1 1
      ((List.range 11).map (fun i =>
        ({ id := i, question := "q", answer := "a", category := 1,
           difficulty := 1 } : Question)))
      [{ id := 1, type := "Science" }] =
      .ok { success := true
            questions := ((List.range 11).map (fun i =>
              ({ id := i, question := "q", answer := "a", category := 1,
                 difficulty := 1 } : Question))).take 10
            total_questions := 10
            current_category := 1 } :=
  ⟨by decide, by rfl⟩

/-- C4 amended: for an existing category, a successful
get_category_questions response carries the page-sliced question subset,
the length of that slice — not the unsliced matching count — as
total_questions, and the category identifier as the active scope; every
returned question belongs to the category. -/
theorem C4_total_is_sliced_count (cid : Int) (page : Nat)
    (db : List Question) (cats : List Category) (c : Category)
    (resp : CatResp)
    (hc : cats.filter (fun x => x.id == cid) = [c])
    (hok : get_category_questions cid page db cats = .ok resp) :
    resp.questions =
      paginate_questions page (db.filter (fun q => q.category == cid)) ∧
    resp.total_questions = resp.questions.length ∧
    resp.current_category = cid ∧
    ∀ q ∈ resp.questions, q.category = cid := by
  unfold get_category_questions at hok
  rw [hc] at hok
  by_cases hz : ((db.filter (fun q => q.category == cid)).length == 0) = true
  · simp [one_or_none, hz] at hok
  · simp [one_or_none, hz] at hok
    subst hok
    refine ⟨rfl, rfl, rfl, ?_⟩
    intro q hmem
    have hm2 : q ∈ paginate_questions page
        (db.filter (fun x => x.category == cid)) := hmem
    exact eq_of_beq (List.mem_filter.mp (mem_paginate hm2)).2

/-- C4 witness: on a one-question category the sliced length, the echoed
scope and the membership facts hold at a concrete input. -/
theorem C4_total_is_sliced_count_witness :
    ([⟨3, "q", "a", 2, 1⟩] : List Question).filter (fun x => Question.category x == 2) ≠ [] ∧
    (get_category_questions 2 1 [⟨3, "q", "a", 2, 1⟩] [⟨2, "Art"⟩] =
      .ok { success := true, questions := [⟨3, "q", "a", 2, 1⟩],
            total_questions := 1, current_category := 2 }) ∧
    ({ success := true, questions := [⟨3, "q", "a", 2, 1⟩],
       total_questions := 1, current_category := 2 } : CatResp).total_questions =
      ({ success := true, questions := [⟨3, "q", "a", 2, 1⟩],
         total_questions := 1, current_category := 2 } : CatResp).questions.length :=
  ⟨by decide, by rfl,
    (C4_total_is_sliced_count 2 1 [⟨3, "q", "a", 2, 1⟩] [⟨2, "Art"⟩] ⟨2, "Art"⟩
      _ (by decide) (by rfl)).2.1⟩

/- ------------------------------------------------------------------ -/
/- Claim C7 (confirmed).                                               -/
/- ------------------------------------------------------------------ -/

/-- C7: get_category_questions fails with Unprocessable when no category
carries the identifier, fails with NotFound when the category exists but
no question references it, and on success returns only questions whose
category reference equals the identifier. -/
theorem C7_category_listing_errors (cid : Int) (page : Nat)
    (db : List Question) (cats : List Category) :
    (cats.filter (fun x => x.id == cid) = [] →
      get_category_questions cid page db cats = .error .unprocessable) ∧
    (∀ c, cats.filter (fun x => x.id == cid) = [c] →
      db.filter (fun q => q.category == cid) = [] →
      get_category_questions cid page db cats = .error .notFound) ∧
    (∀ resp, get_category_questions cid page db cats = .ok resp →
      ∀ q ∈ resp.questions, q.category = cid) := by
  refine ⟨?_, ?_, ?_⟩
  · intro h
    unfold get_category_questions
    rw [h]
    rfl
  · intro c hc hq
    unfold get_category_questions
    rw [hc]
    simp [one_or_none, hq]
  · intro resp hok q hmem
    unfold get_category_questions at hok
    cases hoc : one_or_none (cats.filter (fun x => x.id == cid)) with
    | error e =>
      rw [hoc] at hok
      simp at hok
    | ok oc =>
      rw [hoc] at hok
      cases oc with
      | none => simp at hok
      | some c =>
        by_cases hz : ((db.filter (fun x => x.category == cid)).length == 0) = true
        · simp [hz] at hok
        · simp [hz] at hok
          subst hok
          have hm2 : q ∈ paginate_questions page
              (db.filter (fun x => x.category == cid)) := hmem
          exact eq_of_beq (List.mem_filter.mp (mem_paginate hm2)).2

/-- C7 witness: the three branches at concrete inputs — unknown category
2 rejected, empty category 1 not found, and a drawn listing whose single
question carries the requested category. -/
theorem C7_category_listing_errors_witness :
    get_category_questions 2 1 [] [⟨1, "Science"⟩] = .error .unprocessable ∧
    get_category_questions 1 1 [⟨4, "q", "a", 3, 1⟩] [⟨1, "Science"⟩] =
      .error .notFound ∧
    (⟨4, "q", "a", 1, 1⟩ : Question).category = 1 :=
  ⟨(C7_category_listing_errors 2 1 [] [⟨1, "Science"⟩]).1 (by decide),
   (C7_category_listing_errors 1 1 [⟨4, "q", "a", 3, 1⟩] [⟨1, "Science"⟩]).2.1
      ⟨1, "Science"⟩ (by decide) (by decide),
   (C7_category_listing_errors 1 1 [⟨4, "q", "a", 1, 1⟩] [⟨1, "Science"⟩]).2.2
      { success := true, questions := [⟨4, "q", "a", 1, 1⟩],
        total_questions := 1, current_category := 1 } (by rfl)
      ⟨4, "q", "a", 1, 1⟩ (by decide)⟩

/- ------------------------------------------------------------------ -/
/- Claim C9 (confirmed).                                               -/
/- ------------------------------------------------------------------ -/

/-- C9: delete_questions fails with Unprocessable when no stored question
carries the identifier and leaves the storage unchanged; when exactly one
row carries it, the call succeeds, returns the identifier, removes the
row, and an immediately repeated call on the resulting storage fails with
Unprocessable without further change. -/
theorem C9_delete_semantics (qid : Nat) (db : List Question) :
    (db.filter (fun q => q.id == qid) = [] →
      delete_questions qid db = (.error .unprocessable, db)) ∧
    (∀ q, db.filter (fun x => x.id == qid) = [q] →
      delete_questions qid db =
        (.ok qid, db.filter (fun x => !(x.id == qid))) ∧
      delete_questions qid (db.filter (fun x => !(x.id == qid))) =
        (.error .unprocessable, db.filter (fun x => !(x.id == qid)))) := by
  constructor
  · intro h
    unfold delete_questions
    rw [h]
    rfl
  · intro q hq
    constructor
    · unfold delete_questions
      rw [hq]
      rfl
    · have h2 : (db.filter (fun x => !(x.id == qid))).filter
          (fun x => x.id == qid) = [] := by
        apply List.filter_eq_nil_iff.mpr
        intro a ha
        have hne := (List.mem_filter.mp ha).2
        simp at hne ⊢
        exact hne
      unfold delete_questions
      rw [h2]
      rfl

/-- C9 witness: deleting the only stored question succeeds once and the
repeated call on the shrunken storage is rejected. -/
theorem C9_delete_semantics_witness :
    delete_questions 1 [⟨1, "q", "a", 1, 1⟩] =
      (.ok 1, ([⟨1, "q", "a", 1, 1⟩] : List Question).filter
        (fun x => !(x.id == 1))) ∧
    delete_questions 1 (([⟨1, "q", "a", 1, 1⟩] : List Question).filter
        (fun x => !(x.id == 1))) =
      (.error .unprocessable, ([⟨1, "q", "a", 1, 1⟩] : List Question).filter
        (fun x => !(x.id == 1))) :=
  (C9_delete_semantics 1 [⟨1, "q", "a", 1, 1⟩]).2 ⟨1, "q", "a", 1, 1⟩ (by decide)

/- ------------------------------------------------------------------ -/
/- Claim C8 (corrected).                                               -/
/- ------------------------------------------------------------------ -/

/-- C8 counterexample: the term containing a percent sign shows that the
filter is SQL ILIKE pattern matching, not substring containment — the
question text ab does not contain the three-character term as a
substring, yet the search returns it because the percent acts as a
wildcard. -/
theorem C8_counterexample :
    spec_contains_ci "ab" "a%b" = false ∧
    search_questions { searchTerm := some "a%b" } 1
        [⟨1, "ab", "x", 1, 1⟩] =
      .ok { success := true, questions := [⟨1, "ab", "x", 1, 1⟩],
            total_questions := 1 } :=
  ⟨by decide, by rfl⟩

/-- C8 amended: for a non-empty ASCII term over a bank of ASCII question
texts, a successful search response carries exactly the page slice of
the questions whose text matches the term under SQL ILIKE with percent
wildcards around it, ordered by identifier ascending, and reports as
total the number of all such matches computed before page slicing; in
particular each returned question is a match drawn from the bank and the
slice is at most one page long. -/
theorem C8_search_semantics (term : String) (page : Nat)
    (db : List Question) (resp : SearchResp)
    (hterm : term.isEmpty = false)
    (hta : ∀ c ∈ term.data, c.toNat < 128)
    (hdba : ∀ q ∈ db, ∀ c ∈ q.question.data, c.toNat < 128)
    (hok : search_questions { searchTerm := some term } page db = .ok resp) :
    resp.questions =
      paginate_questions page
        (orderById (db.filter (fun q => ilike q.question ("%" ++ term ++ "%")))) ∧
    resp.total_questions =
      (db.filter (fun q => ilike q.question ("%" ++ term ++ "%"))).length ∧
    (∀ q ∈ resp.questions,
      ilike q.question ("%" ++ term ++ "%") = true ∧ q ∈ db) ∧
    resp.questions.Sorted (fun a b => a.id ≤ b.id) ∧
    resp.questions.length ≤ QUESTIONS_PER_PAGE := by
  unfold search_questions at hok
  simp [hterm] at hok
  subst hok
  refine ⟨rfl, orderById_length _, ?_, ?_, paginate_length_le _ _⟩
  · intro q hmem
    have hm2 : q ∈ orderById
        (db.filter (fun x => ilike x.question ("%" ++ term ++ "%"))) :=
      mem_paginate hmem
    have hm3 := List.mem_filter.mp (orderById_mem hm2)
    exact ⟨hm3.2, hm3.1⟩
  · exact List.Pairwise.sublist (paginate_sublist _ _) (orderById_sorted _)

/-- C8 witness: a concrete case-insensitive match where the returned
list equals the page slice of the ordered matches and the reported total
is the unsliced match count, at a one-question ASCII bank. -/
theorem C8_search_semantics_witness :
    (search_questions { searchTerm := some "qui" } 1
        [⟨1, "The Quick fox", "a", 1, 1⟩] =
      .ok { success := true, questions := [⟨1, "The Quick fox", "a", 1, 1⟩],
            total_questions := 1 }) ∧
    ({ success := true, questions := [⟨1, "The Quick fox", "a", 1, 1⟩],
       total_questions := 1 } : SearchResp).questions =
      paginate_questions 1 (orderById
        (([⟨1, "The Quick fox", "a", 1, 1⟩] : List Question).filter
          (fun q => ilike q.question ("%" ++ "qui" ++ "%")))) ∧
    ({ success := true, questions := [⟨1, "The Quick fox", "a", 1, 1⟩],
       total_questions := 1 } : SearchResp).total_questions =
      (([⟨1, "The Quick fox", "a", 1, 1⟩] : List Question).filter
        (fun q => ilike q.question ("%" ++ "qui" ++ "%"))).length :=
  ⟨by rfl,
   (C8_search_semantics "qui" 1 [⟨1, "The Quick fox", "a", 1, 1⟩]
      { success := true, questions := [⟨1, "The Quick fox", "a", 1, 1⟩],
        total_questions := 1 } (by decide) (by decide) (by decide) (by rfl)).1,
   (C8_search_semantics "qui" 1 [⟨1, "The Quick fox", "a", 1, 1⟩]
      { success := true, questions := [⟨1, "The Quick fox", "a", 1, 1⟩],
        total_questions := 1 } (by decide) (by decide) (by decide) (by rfl)).2.1⟩

/- ------------------------------------------------------------------ -/
/- Quiz selector helper lemmas.                                        -/
/- ------------------------------------------------------------------ -/

theorem quizDraw_exhausted (L : List Question) (pick : Nat)
    (h : L.length ≤ 1) :
    quizDraw L pick = .ok { success := true, question := none } := by
  unfold quizDraw
  have hmx : ¬((L.length : Int) - 1 > 0) := by omega
  simp [hmx]

theorem quizDraw_drawn (L : List Question) (pick : Nat) (resp : QuizResp)
    (q : Question) (hok : quizDraw L pick = .ok resp)
    (hq : resp.question = some q) : q ∈ L ∧ 2 ≤ L.length := by
  unfold quizDraw at hok
  by_cases hmx : ((L.length : Int) - 1 > 0)
  · simp only [hmx, if_true] at hok
    cases hp : L[pick]? with
    | none => rw [hp] at hok; simp at hok
    | some q0 =>
      rw [hp] at hok
      simp at hok
      subst hok
      simp at hq
      subst hq
      exact ⟨List.getElem?_mem hp, by omega⟩
  · simp only [hmx, if_false] at hok
    simp at hok
    subst hok
    simp at hq

theorem post_quizzes_eq_draw (cid : Int) (prev : List Nat)
    (db : List Question) (cats : List Category) (pick : Nat)
    (hcat : 0 < cid → (categoryGet cats cid).isSome = true) :
    post_quizzes { quiz_category := some cid, previous_questions := prev }
      db cats pick = quizDraw (eligibleSet cid prev db) pick := by
  unfold post_quizzes
  by_cases hc : cid > 0
  · cases hfind : categoryGet cats cid with
    | none =>
      have hs := hcat hc
      rw [hfind] at hs
      simp at hs
    | some cat =>
      have hcatid : cat.id = cid := by
        have hf : List.find? (fun c => c.id == cid) cats = some cat := hfind
        have hb := List.find?_some hf
        exact eq_of_beq hb
      have hlist : (if prev.length > 0 then
            db.filter (fun q => !(prev.contains q.id) && q.category == cat.id)
          else
            db.filter (fun q => q.category == cat.id)) =
          eligibleSet cid prev db := by
        unfold eligibleSet
        rw [if_pos hc]
        by_cases hp : prev.length > 0
        · rw [if_pos hp]
          apply List.filter_congr
          intro a _
          rw [hcatid]
          exact Bool.and_comm _ _
        · rw [if_neg hp]
          have hpnil : prev = [] := List.length_eq_zero.mp (by omega)
          subst hpnil
          apply List.filter_congr
          intro a _
          rw [hcatid]
          simp
      simp only [hfind, hc, if_true]
      rw [hlist]
  · have hlist : (if prev.length > 0 then
          db.filter (fun q => !(prev.contains q.id))
        else db) = eligibleSet cid prev db := by
      unfold eligibleSet
      rw [if_neg hc]
      by_cases hp : prev.length > 0
      · rw [if_pos hp]
      · rw [if_neg hp]
        have hpnil : prev = [] := List.length_eq_zero.mp (by omega)
        subst hpnil
        simp
    simp only [hc, if_false]
    rw [hlist]

/- ------------------------------------------------------------------ -/
/- Claim C1 (confirmed).                                               -/
/- ------------------------------------------------------------------ -/

/-- C1: for a well-formed quiz request, when the eligible candidate set
— questions in scope minus the excluded identifiers — holds zero or one
question, post_quizzes answers with a success response whose question
payload is absent, and conversely a question is only ever drawn when at
least two candidates remain. -/
theorem C1_two_candidate_threshold (cid : Int) (prev : List Nat)
    (db : List Question) (cats : List Category) (pick : Nat)
    (hcat : 0 < cid → (categoryGet cats cid).isSome = true) :
    ((eligibleSet cid prev db).length ≤ 1 →
      post_quizzes { quiz_category := some cid, previous_questions := prev }
        db cats pick = .ok { success := true, question := none }) ∧
    (∀ resp q,
      post_quizzes { quiz_category := some cid, previous_questions := prev }
        db cats pick = .ok resp →
      resp.question = some q →
      2 ≤ (eligibleSet cid prev db).length) := by
  constructor
  · intro hle
    rw [post_quizzes_eq_draw cid prev db cats pick hcat]
    exact quizDraw_exhausted _ pick hle
  · intro resp q hok hq
    rw [post_quizzes_eq_draw cid prev db cats pick hcat] at hok
    exact (quizDraw_drawn _ pick resp q hok hq).2

/-- C1 witness: the boundary scenario of the spec — three Science
questions, two already asked, one candidate left — reports Exhausted
with a success payload of none. -/
theorem C1_two_candidate_threshold_witness :
    (eligibleSet 1 [10, 11]
      [⟨10, "a", "b", 1, 1⟩, ⟨11, "c", "d", 1, 1⟩,
       ⟨12, "e", "f", 1, 1⟩]).length ≤ 1 ∧
    post_quizzes { quiz_category := some 1, previous_questions := [10, 11] }
      [⟨10, "a", "b", 1, 1⟩, ⟨11, "c", "d", 1, 1⟩, ⟨12, "e", "f", 1, 1⟩]
      [⟨1, "Science"⟩] 0 = .ok { success := true, question := none } :=
  ⟨by decide,
   (C1_two_candidate_threshold 1 [10, 11]
      [⟨10, "a", "b", 1, 1⟩, ⟨11, "c", "d", 1, 1⟩, ⟨12, "e", "f", 1, 1⟩]
      [⟨1, "Science"⟩] 0 (by decide)).1 (by decide)⟩

/- ------------------------------------------------------------------ -/
/- Claim C2 (confirmed).                                               -/
/- ------------------------------------------------------------------ -/

/-- C2: every question a quiz draw returns lies outside the excluded
identifiers; with a positive scope it belongs to exactly that category,
and with the sentinel scope it is a member of the eligible set drawn
from the whole bank minus the excluded identifiers. -/
theorem C2_drawn_question_in_scope (cid : Int) (prev : List Nat)
    (db : List Question) (cats : List Category) (pick : Nat)
    (resp : QuizResp) (q : Question)
    (hok : post_quizzes { quiz_category := some cid, previous_questions := prev }
      db cats pick = .ok resp)
    (hq : resp.question = some q) :
    prev.contains q.id = false ∧ (0 < cid → q.category = cid) ∧
    q ∈ db ∧ q ∈ eligibleSet cid prev db := by
  have hcat : 0 < cid → (categoryGet cats cid).isSome = true := by
    intro hc
    cases hfind : categoryGet cats cid with
    | some c => rfl
    | none =>
      exfalso
      unfold post_quizzes at hok
      simp only [hfind, hc, if_true] at hok
      simp at hok
  rw [post_quizzes_eq_draw cid prev db cats pick hcat] at hok
  have hmem := (quizDraw_drawn _ pick resp q hok hq).1
  unfold eligibleSet at hmem
  by_cases hc : cid > 0
  · rw [if_pos hc] at hmem
    obtain ⟨hdb, hpred⟩ := List.mem_filter.mp hmem
    have hpred2 : (q.category == cid && !(prev.contains q.id)) = true := hpred
    simp at hpred2
    refine ⟨by simpa using hpred2.2, fun _ => hpred2.1, hdb, ?_⟩
    unfold eligibleSet
    rw [if_pos hc]
    exact hmem
  · rw [if_neg hc] at hmem
    obtain ⟨hdb, hpred⟩ := List.mem_filter.mp hmem
    have hpred2 : (!(prev.contains q.id)) = true := hpred
    refine ⟨by simpa using hpred2, fun hcc => absurd hcc hc, hdb, ?_⟩
    unfold eligibleSet
    rw [if_neg hc]
    exact hmem

/-- C2 witness: a concrete draw over a two-question Science bank with an
empty exclusion list returns a question outside the exclusion list,
inside the requested category and inside the eligible set. -/
theorem C2_drawn_question_in_scope_witness :
    ([] : List Nat).contains (⟨10, "a", "b", 1, 1⟩ : Question).id = false ∧
    (0 < (1 : Int) → (⟨10, "a", "b", 1, 1⟩ : Question).category = 1) ∧
    (⟨10, "a", "b", 1, 1⟩ : Question) ∈
      ([⟨10, "a", "b", 1, 1⟩, ⟨11, "c", "d", 1, 1⟩] : List Question) ∧
    (⟨10, "a", "b", 1, 1⟩ : Question) ∈
      eligibleSet 1 [] [⟨10, "a", "b", 1, 1⟩, ⟨11, "c", "d", 1, 1⟩] :=
  C2_drawn_question_in_scope 1 []
    [⟨10, "a", "b", 1, 1⟩, ⟨11, "c", "d", 1, 1⟩] [⟨1, "Science"⟩] 0
    { success := true, question := some ⟨10, "a", "b", 1, 1⟩ }
    ⟨10, "a", "b", 1, 1⟩ (by rfl) (by rfl)
